import Mathlib

/-!
Verification of the Ezkl-ML pipeline orchestrator and model-preparation
scripts against their specification.

The development shallowly embeds the two Python programs:

* `src/ezkl/script/run_ezkl.py` — the pipeline driver.  External effects
  (directory change, console prints, child-process invocations) are recorded
  as an ordered trace of `Event`s; the exit statuses of external commands are
  supplied by an oracle `Cmd → Nat` (the status the child process would
  return), the preflight diagnostic result by an `Option Nat` (`none` models
  the tool being impossible to launch, `some n` a run with exit status `n`),
  and the success of `os.chdir` by a `Bool`.

* `src/ezkl/create_model.py` and `src/ezkl/script/create_model.py` — the
  model-preparation scripts.  Filesystem effects and console prints are
  recorded as a trace of `MEvent`s; Python `json.loads` is an environment
  parameter `String → Option PyJson`; all strings that the scripts derive
  from the floating-point model evaluation (which happens in the external
  torch library and does not influence control flow) are bundled in an
  abstract `Rendered` parameter.
-/

/-- A fully resolved external command: executable name followed by arguments,
mirroring the Python list-of-strings passed to `subprocess.run`. -/
abbrev Cmd := List String

/-- The parsed CLI configuration of `run_ezkl.py` (argparse result):
`--working-dir`, `--model-path`, `--srs-path`, `--generate-contract`. -/
structure Config where
  workingDir : String
  modelPath : String
  srsPath : String
  generateContract : Bool
deriving DecidableEq

/-- The core stage registry from `run_ezkl.py` (the `steps` list, lines 24-32):
seven (command, description) pairs built from the configuration. -/
def steps (args : Config) : List (Cmd × String) :=
  [ (["ezkl", "gen-settings", "-M", args.modelPath, "-O", "settings.json"],
     "Generating circuit settings..."),
    (["ezkl", "calibrate-settings", "-M", args.modelPath, "-D", "input.json", "-O", "settings.json"],
     "Calibrating settings..."),
    (["ezkl", "compile-circuit", "-M", args.modelPath, "--compiled-circuit", "model.compiled", "-S", "settings.json"],
     "Compiling model to circuit..."),
    (["ezkl", "setup", "-M", "model.compiled", "--pk-path", "pk.key", "--vk-path", "vk.key", "--srs-path", args.srsPath],
     "Running setup to generate keys..."),
    (["ezkl", "gen-witness", "-D", "input.json", "-M", "model.compiled", "-O", "witness.json"],
     "Generating witness..."),
    (["ezkl", "prove", "--witness", "witness.json", "--proof-path", "proof.json", "--pk-path", "pk.key", "--compiled-circuit", "model.compiled", "--srs-path", args.srsPath],
     "Generating proof..."),
    (["ezkl", "verify", "--proof-path", "proof.json", "--vk-path", "vk.key", "--srs-path", args.srsPath],
     "Verifying proof locally...") ]

/-- The extension stage registry from `run_ezkl.py` (the `contract_step` list,
lines 42-45): two (command, description) pairs. -/
def contract_step (args : Config) : List (Cmd × String) :=
  [ (["ezkl", "create-evm-verifier", "--vk-path", "vk.key", "--sol-code-path", "Halo2Verifier.sol", "--srs-path", args.srsPath],
     "Generating Solidity verifier contract..."),
    (["ezkl", "encode-evm-calldata", "--proof-path", "proof.json", "--calldata-path", "calldata.json"],
     "Generating calldata for on-chain verification...") ]

/-- Observable events of a driver run. `invoked cmd suppressed` records one
child-process invocation; `suppressed` is true when its output is piped away
from the operator (the preflight check) and false when it is streamed. -/
inductive Event where
  | chdir (dir : String)
  | printed (s : String)
  | invoked (cmd : Cmd) (suppressed : Bool)
deriving DecidableEq

/-- The observable outcome of one driver run: an ordered trace of events and
the process exit status. -/
structure RunResult where
  trace : List Event
  exitCode : Nat
deriving DecidableEq

/-- The space-joined command text used in the failure report of `run_ezkl.py`. -/
def joinCmd (c : Cmd) : String := String.intercalate " " c

/-- One fail-fast loop over a stage list (the two identical loops at lines
34-39 and 46-51 of `run_ezkl.py`): print the description, invoke the command,
stop at the first nonzero status, printing the failing command.  Returns the
trace and whether every stage succeeded. -/
def runStages (oracle : Cmd → Nat) : List (Cmd × String) → List Event × Bool
  | [] => ([], true)
  | (cmd, msg) :: rest =>
    if oracle cmd = 0 then
      let r := runStages oracle rest
      (Event.printed msg :: Event.invoked cmd false :: r.1, r.2)
    else
      ([Event.printed msg, Event.invoked cmd false,
        Event.printed ("Failed step: " ++ joinCmd cmd)], false)

/-- The preflight diagnostic command (`subprocess.run(["ezkl", "--help"], ...)`). -/
def helpCmd : Cmd := ["ezkl", "--help"]

/-- The installation guidance printed when the preflight check fails. -/
def notFoundMsg : String := "EZKL not found. Please install it with: pip install ezkl"

/-- The completion message printed on full success. -/
def completeMsg : String := "EZKL processing complete!"

/-- The whole driver `main` of `run_ezkl.py`.  `chdirOk` models whether
`os.chdir(args.working_dir)` succeeds (on failure the uncaught `OSError`
terminates the interpreter with a nonzero status before anything runs);
`preflight` models the diagnostic `subprocess.run` with `check=True`
(`none`: the tool cannot be launched, `some n`: it ran with status `n` —
`check=True` raises unless `n = 0`); `oracle` gives the exit status of each
stage invocation. -/
def mainRun (cfg : Config) (chdirOk : Bool) (preflight : Option Nat)
    (oracle : Cmd → Nat) : RunResult :=
  if chdirOk then
    let pfTrace : List Event :=
      match preflight with
      | some _ => [Event.invoked helpCmd true]
      | none => []
    if preflight = some 0 then
      let core := runStages oracle (steps cfg)
      let base := Event.chdir cfg.workingDir :: pfTrace ++ core.1
      if core.2 then
        if cfg.generateContract then
          let ext := runStages oracle (contract_step cfg)
          if ext.2 then
            ⟨base ++ ext.1 ++ [Event.printed completeMsg], 0⟩
          else
            ⟨base ++ ext.1, 1⟩
        else
          ⟨base ++ [Event.printed completeMsg], 0⟩
      else
        ⟨base, 1⟩
    else
      ⟨Event.chdir cfg.workingDir :: pfTrace ++ [Event.printed notFoundMsg], 1⟩
  else
    ⟨[], 1⟩

/-- The pipeline stage commands actually invoked during a run, in order:
the invocations whose output is streamed to the operator (every stage
invocation; the preflight diagnostic is the only suppressed one). -/
def stageCmds (tr : List Event) : List Cmd :=
  tr.filterMap fun e =>
    match e with
    | Event.invoked c false => some c
    | _ => none

/-- The full sequence a run may execute: the core registry, followed by the
extension registry when the contract flag is set. -/
def fullSeq (cfg : Config) : List (Cmd × String) :=
  steps cfg ++ if cfg.generateContract then contract_step cfg else []

/-- Placeholder stage used for total indexing into a stage list. -/
def dummyStage : Cmd × String := ([], "")

/-- Total access to the `i`-th stage of a registry. -/
def stageAt (L : List (Cmd × String)) (i : Nat) : Cmd × String :=
  L.getD i dummyStage

@[simp] theorem stageAt_cons_zero (a : Cmd × String) (l : List (Cmd × String)) :
    stageAt (a :: l) 0 = a := rfl

@[simp] theorem stageAt_cons_succ (a : Cmd × String) (l : List (Cmd × String)) (n : Nat) :
    stageAt (a :: l) (n + 1) = stageAt l n := rfl

@[simp] theorem stageCmds_nil : stageCmds [] = [] := rfl

@[simp] theorem stageCmds_cons_chdir (d : String) (tr : List Event) :
    stageCmds (Event.chdir d :: tr) = stageCmds tr := rfl

@[simp] theorem stageCmds_cons_printed (s : String) (tr : List Event) :
    stageCmds (Event.printed s :: tr) = stageCmds tr := rfl

@[simp] theorem stageCmds_cons_invoked_false (c : Cmd) (tr : List Event) :
    stageCmds (Event.invoked c false :: tr) = c :: stageCmds tr := rfl

@[simp] theorem stageCmds_cons_invoked_true (c : Cmd) (tr : List Event) :
    stageCmds (Event.invoked c true :: tr) = stageCmds tr := rfl

@[simp] theorem stageCmds_append (a b : List Event) :
    stageCmds (a ++ b) = stageCmds a ++ stageCmds b := by
  simp [stageCmds]

theorem runStages_ok_iff (o : Cmd → Nat) (L : List (Cmd × String)) :
    (runStages o L).2 = true ↔ ∀ s ∈ L, o s.1 = 0 := by
  induction L with
  | nil => simp [runStages]
  | cons hd tl ih =>
    obtain ⟨c, m⟩ := hd
    by_cases hc : o c = 0
    · simp [runStages, hc, ih]
    · simp [runStages, hc]

theorem runStages_stageCmds_extends (o : Cmd → Nat) (L : List (Cmd × String)) :
    ∃ t, stageCmds (runStages o L).1 ++ t = L.map Prod.fst := by
  induction L with
  | nil => exact ⟨[], rfl⟩
  | cons hd tl ih =>
    obtain ⟨c, m⟩ := hd
    by_cases hc : o c = 0
    · obtain ⟨t, ht⟩ := ih
      exact ⟨t, by simp [runStages, hc, ht]⟩
    · exact ⟨tl.map Prod.fst, by simp [runStages, hc]⟩

theorem runStages_all_zero (o : Cmd → Nat) (L : List (Cmd × String))
    (h : ∀ s ∈ L, o s.1 = 0) :
    (runStages o L).2 = true ∧ stageCmds (runStages o L).1 = L.map Prod.fst := by
  induction L with
  | nil => simp [runStages]
  | cons hd tl ih =>
    obtain ⟨c, m⟩ := hd
    have hc : o c = 0 := h (c, m) (by simp)
    obtain ⟨ih1, ih2⟩ := ih (fun s hs => h s (by simp [hs]))
    exact ⟨by simp [runStages, hc, ih1], by simp [runStages, hc, ih2]⟩

theorem runStages_append (o : Cmd → Nat) (A B : List (Cmd × String)) :
    runStages o (A ++ B) =
      if (runStages o A).2 then
        ((runStages o A).1 ++ (runStages o B).1, (runStages o B).2)
      else runStages o A := by
  induction A with
  | nil => simp [runStages]
  | cons hd tl ih =>
    obtain ⟨c, m⟩ := hd
    by_cases hc : o c = 0
    · by_cases ht : (runStages o tl).2 = true
      · simp [runStages, hc, ih, ht]
      · simp at ht
        simp [runStages, hc, ih, ht]
    · simp [runStages, hc]

theorem runStages_fail (o : Cmd → Nat) (L : List (Cmd × String)) (i : Nat)
    (hi : i < L.length)
    (hprev : ∀ j, j < i → o (stageAt L j).1 = 0)
    (hfail : o (stageAt L i).1 ≠ 0) :
    (runStages o L).2 = false ∧
    stageCmds (runStages o L).1 = (L.take (i + 1)).map Prod.fst ∧
    Event.printed ("Failed step: " ++ joinCmd (stageAt L i).1)
      ∈ (runStages o L).1 := by
  induction L generalizing i with
  | nil => exact absurd hi (by simp)
  | cons hd tl ih =>
    obtain ⟨c, m⟩ := hd
    cases i with
    | zero =>
      have hf : o c ≠ 0 := by simpa using hfail
      refine ⟨by simp [runStages, hf], ?_, ?_⟩
      · simp [runStages, hf]
      · simp [runStages, hf]
    | succ n =>
      have hc : o c = 0 := by
        have := hprev 0 (Nat.succ_pos n)
        simpa using this
      have hn : n < tl.length := by simpa using hi
      have hp : ∀ j, j < n → o (stageAt tl j).1 = 0 := by
        intro j hj
        have := hprev (j + 1) (Nat.succ_lt_succ hj)
        simpa using this
      have hf : o (stageAt tl n).1 ≠ 0 := by simpa using hfail
      obtain ⟨h1, h2, h3⟩ := ih n hn hp hf
      refine ⟨by simp [runStages, hc, h1], ?_, ?_⟩
      · simp [runStages, hc, h2]
      · simp [runStages, hc]
        exact Or.inr h3

theorem runStages_congr (o₁ o₂ : Cmd → Nat) (L : List (Cmd × String))
    (h : ∀ s ∈ L, o₁ s.1 = o₂ s.1) :
    runStages o₁ L = runStages o₂ L := by
  induction L with
  | nil => rfl
  | cons hd tl ih =>
    obtain ⟨c, m⟩ := hd
    have hc : o₁ c = o₂ c := h (c, m) (by simp)
    have ht := ih (fun s hs => h s (by simp [hs]))
    simp [runStages, hc, ht]

theorem mainRun_eq (cfg : Config) (o : Cmd → Nat) :
    mainRun cfg true (some 0) o =
      ⟨Event.chdir cfg.workingDir :: Event.invoked helpCmd true ::
        ((runStages o (fullSeq cfg)).1 ++
          (if (runStages o (fullSeq cfg)).2 then [Event.printed completeMsg] else [])),
        if (runStages o (fullSeq cfg)).2 then 0 else 1⟩ := by
  by_cases hf : cfg.generateContract = true
  · have hr := runStages_append o (steps cfg) (contract_step cfg)
    by_cases hcore : (runStages o (steps cfg)).2 = true
    · by_cases hext : (runStages o (contract_step cfg)).2 = true
      · simp [mainRun, fullSeq, hf, hcore, hext, hr]
      · simp only [Bool.not_eq_true] at hext
        simp [mainRun, fullSeq, hf, hcore, hext, hr]
    · simp only [Bool.not_eq_true] at hcore
      simp [mainRun, fullSeq, hf, hcore, hr]
  · simp only [Bool.not_eq_true] at hf
    by_cases hcore : (runStages o (steps cfg)).2 = true
    · simp [mainRun, fullSeq, hf, hcore]
    · simp only [Bool.not_eq_true] at hcore
      simp [mainRun, fullSeq, hf, hcore]

theorem contract_not_in_core (cfg : Config) :
    ∀ c ∈ (contract_step cfg).map Prod.fst, c ∉ (steps cfg).map Prod.fst := by
  simp [steps, contract_step]

/-- Concrete configuration used by witness instantiations. -/
def cfgW : Config := ⟨"wd", "model.onnx", "kzg.srs", false⟩

/-- Concrete configuration with the contract flag set, for witnesses. -/
def cfgWC : Config := ⟨"wd", "model.onnx", "kzg.srs", true⟩

/-- C1: Fail-fast abort — if stage `i` of the sequence being executed returns
a nonzero exit status (all earlier stages having succeeded), then the stage
commands actually invoked are exactly the first `i + 1` of the sequence (so no
later stage is ever invoked), the exact failing command is reported, and the
process exits with a nonzero status. -/
theorem fail_fast_abort (cfg : Config) (o : Cmd → Nat) (i : Nat)
    (hi : i < (fullSeq cfg).length)
    (hprev : ∀ j, j < i → o (stageAt (fullSeq cfg) j).1 = 0)
    (hfail : o (stageAt (fullSeq cfg) i).1 ≠ 0) :
    stageCmds (mainRun cfg true (some 0) o).trace
        = ((fullSeq cfg).take (i + 1)).map Prod.fst ∧
    Event.printed ("Failed step: " ++ joinCmd (stageAt (fullSeq cfg) i).1)
        ∈ (mainRun cfg true (some 0) o).trace ∧
    (mainRun cfg true (some 0) o).exitCode = 1 := by
  obtain ⟨h1, h2, h3⟩ := runStages_fail o (fullSeq cfg) i hi hprev hfail
  rw [mainRun_eq]
  refine ⟨?_, ?_, ?_⟩
  · simp [h1, h2]
  · simp [h1]
    exact h3
  · simp [h1]

/-- C1 witness: with a stub tool that always fails, the first core stage of a
concrete configuration is the only invocation, its command is reported, and
the exit status is 1. -/
theorem fail_fast_abort_witness :
    stageCmds (mainRun cfgW true (some 0) (fun _ => 1)).trace
        = ((fullSeq cfgW).take 1).map Prod.fst ∧
    Event.printed ("Failed step: " ++ joinCmd (stageAt (fullSeq cfgW) 0).1)
        ∈ (mainRun cfgW true (some 0) (fun _ => 1)).trace ∧
    (mainRun cfgW true (some 0) (fun _ => 1)).exitCode = 1 :=
  fail_fast_abort cfgW (fun _ => 1) 0 (by simp [fullSeq, steps, cfgW])
    (fun j hj => absurd hj (Nat.not_lt_zero j))
    (by simp [fullSeq, steps, cfgW, stageAt])

/-- C2: Core sequence content and order — for every configuration the core
registry has exactly seven stages, whose commands are, in order, the
`gen-settings`, `calibrate-settings`, `compile-circuit`, `setup`,
`gen-witness`, `prove` and `verify` subcommands of the tool; and in every run
the sequence of stage commands actually invoked is an initial segment of the
declared registry order. -/
theorem core_registry_order (cfg : Config) (b : Bool) (pf : Option Nat)
    (o : Cmd → Nat) :
    (steps cfg).length = 7 ∧
    (steps cfg).map (fun s => s.1.take 2) =
      [["ezkl", "gen-settings"], ["ezkl", "calibrate-settings"],
       ["ezkl", "compile-circuit"], ["ezkl", "setup"], ["ezkl", "gen-witness"],
       ["ezkl", "prove"], ["ezkl", "verify"]] ∧
    ∃ t, stageCmds (mainRun cfg b pf o).trace ++ t = (fullSeq cfg).map Prod.fst := by
  refine ⟨rfl, rfl, ?_⟩
  cases b with
  | false => exact ⟨(fullSeq cfg).map Prod.fst, by simp [mainRun]⟩
  | true =>
    by_cases hpf : pf = some 0
    · subst hpf
      obtain ⟨t, ht⟩ := runStages_stageCmds_extends o (fullSeq cfg)
      refine ⟨t, ?_⟩
      rw [mainRun_eq]
      by_cases hok : (runStages o (fullSeq cfg)).2 = true
      · simpa [hok] using ht
      · simp only [Bool.not_eq_true] at hok
        simpa [hok] using ht
    · refine ⟨(fullSeq cfg).map Prod.fst, ?_⟩
      cases pf with
      | none => simp [mainRun]
      | some n => simp [mainRun, hpf]

/-- C3: Extension gating — unless the contract flag is set and every core
stage succeeded, the commands invoked form an initial segment of the core
registry alone, and no extension-registry command is ever invoked. -/
theorem extension_gating (cfg : Config) (b : Bool) (pf : Option Nat)
    (o : Cmd → Nat)
    (h : ¬(cfg.generateContract = true ∧ ∀ s ∈ steps cfg, o s.1 = 0)) :
    (∃ t, stageCmds (mainRun cfg b pf o).trace ++ t = (steps cfg).map Prod.fst) ∧
    ∀ c ∈ (contract_step cfg).map Prod.fst,
      c ∉ stageCmds (mainRun cfg b pf o).trace := by
  have hcore : ∃ t, stageCmds (mainRun cfg b pf o).trace ++ t
      = (steps cfg).map Prod.fst := by
    cases b with
    | false => exact ⟨(steps cfg).map Prod.fst, by simp [mainRun]⟩
    | true =>
      by_cases hpf : pf = some 0
      · subst hpf
        rw [mainRun_eq]
        by_cases hf : cfg.generateContract = true
        · have hnz : ¬ ∀ s ∈ steps cfg, o s.1 = 0 := fun hz => h ⟨hf, hz⟩
          have hfail : (runStages o (steps cfg)).2 = false := by
            rcases Bool.eq_false_or_eq_true (runStages o (steps cfg)).2 with h1 | h0
            · exact absurd ((runStages_ok_iff o (steps cfg)).mp h1) hnz
            · exact h0
          have hseq : runStages o (fullSeq cfg) = runStages o (steps cfg) := by
            rw [fullSeq, if_pos hf, runStages_append, hfail]
            simp
          obtain ⟨t, ht⟩ := runStages_stageCmds_extends o (steps cfg)
          refine ⟨t, ?_⟩
          simp [hseq, hfail]
          exact ht
        · simp only [Bool.not_eq_true] at hf
          have hseq : fullSeq cfg = steps cfg := by simp [fullSeq, hf]
          obtain ⟨t, ht⟩ := runStages_stageCmds_extends o (steps cfg)
          refine ⟨t, ?_⟩
          by_cases hok : (runStages o (steps cfg)).2 = true
          · simpa [hseq, hok] using ht
          · simp only [Bool.not_eq_true] at hok
            simpa [hseq, hok] using ht
      · refine ⟨(steps cfg).map Prod.fst, ?_⟩
        cases pf with
        | none => simp [mainRun]
        | some n => simp [mainRun, hpf]
  refine ⟨hcore, ?_⟩
  intro c hc hmem
  obtain ⟨t, ht⟩ := hcore
  have : c ∈ (steps cfg).map Prod.fst := by
    rw [← ht]
    exact List.mem_append_left t hmem
  exact contract_not_in_core cfg c hc this

/-- C3 witness: with the contract flag unset and an always-failing stub, the
invoked commands are an initial segment of the core registry and no
extension command is among them. -/
theorem extension_gating_witness :
    (∃ t, stageCmds (mainRun cfgW true (some 0) (fun _ => 1)).trace ++ t
        = (steps cfgW).map Prod.fst) ∧
    ∀ c ∈ (contract_step cfgW).map Prod.fst,
      c ∉ stageCmds (mainRun cfgW true (some 0) (fun _ => 1)).trace :=
  extension_gating cfgW true (some 0) (fun _ => 1) (by simp [cfgW])

/-- C4: Preflight failure — when the diagnostic invocation of the tool errors
(tool absent, or any nonzero status), no pipeline stage command is invoked,
the installation guidance is printed, the process exits with status 1, and
every invocation in the trace has its output suppressed. -/
theorem preflight_failure (cfg : Config) (pf : Option Nat) (o : Cmd → Nat)
    (h : pf ≠ some 0) :
    stageCmds (mainRun cfg true pf o).trace = [] ∧
    Event.printed notFoundMsg ∈ (mainRun cfg true pf o).trace ∧
    (mainRun cfg true pf o).exitCode = 1 ∧
    ∀ c b, Event.invoked c b ∈ (mainRun cfg true pf o).trace → b = true := by
  cases pf with
  | none =>
    refine ⟨by simp [mainRun], by simp [mainRun], by simp [mainRun], ?_⟩
    intro c b hm
    simp [mainRun] at hm
  | some n =>
    refine ⟨by simp [mainRun, h], by simp [mainRun, h], by simp [mainRun, h], ?_⟩
    intro c b hm
    simp [mainRun, h] at hm
    obtain ⟨-, hb⟩ := hm
    exact hb

/-- C4 witness: with the tool absent, the concrete configuration invokes no
stage command, prints the guidance, and exits with status 1. -/
theorem preflight_failure_witness :
    stageCmds (mainRun cfgW true none (fun _ => 0)).trace = [] ∧
    Event.printed notFoundMsg ∈ (mainRun cfgW true none (fun _ => 0)).trace ∧
    (mainRun cfgW true none (fun _ => 0)).exitCode = 1 :=
  ⟨(preflight_failure cfgW none (fun _ => 0) (by simp)).1,
   (preflight_failure cfgW none (fun _ => 0) (by simp)).2.1,
   (preflight_failure cfgW none (fun _ => 0) (by simp)).2.2.1⟩

/-- C5: Full-success outcome — when every stage invocation returns status 0,
the invoked stage commands are exactly the declared sequence (7 of them with
the contract flag unset, 9 with it set), the process exits with status 0, and
the completion message is printed. -/
theorem full_success (cfg : Config) (o : Cmd → Nat)
    (h : ∀ s ∈ steps cfg ++ contract_step cfg, o s.1 = 0) :
    stageCmds (mainRun cfg true (some 0) o).trace = (fullSeq cfg).map Prod.fst ∧
    (stageCmds (mainRun cfg true (some 0) o).trace).length
        = (if cfg.generateContract then 9 else 7) ∧
    (mainRun cfg true (some 0) o).exitCode = 0 ∧
    Event.printed completeMsg ∈ (mainRun cfg true (some 0) o).trace := by
  have hall : ∀ s ∈ fullSeq cfg, o s.1 = 0 := by
    intro s hs
    refine h s ?_
    rw [fullSeq] at hs
    rcases List.mem_append.mp hs with h1 | h2
    · exact List.mem_append_left _ h1
    · by_cases hf : cfg.generateContract = true
      · rw [if_pos hf] at h2
        exact List.mem_append_right _ h2
      · simp only [Bool.not_eq_true] at hf
        rw [hf] at h2
        simp at h2
  obtain ⟨hok, hcmds⟩ := runStages_all_zero o (fullSeq cfg) hall
  have hlen : (fullSeq cfg).length = if cfg.generateContract then 9 else 7 := by
    by_cases hf : cfg.generateContract = true
    · simp [fullSeq, hf, steps, contract_step]
    · simp only [Bool.not_eq_true] at hf
      simp [fullSeq, hf, steps]
  rw [mainRun_eq]
  refine ⟨by simp [hok, hcmds], ?_, by simp [hok], by simp [hok]⟩
  simp [hok, hcmds, hlen]

/-- C5 witness: with an always-succeeding stub and the contract flag set, the
concrete run invokes exactly the 9 declared commands and exits 0. -/
theorem full_success_witness :
    stageCmds (mainRun cfgWC true (some 0) (fun _ => 0)).trace
        = (fullSeq cfgWC).map Prod.fst ∧
    (stageCmds (mainRun cfgWC true (some 0) (fun _ => 0)).trace).length
        = (if cfgWC.generateContract then 9 else 7) ∧
    (mainRun cfgWC true (some 0) (fun _ => 0)).exitCode = 0 ∧
    Event.printed completeMsg ∈ (mainRun cfgWC true (some 0) (fun _ => 0)).trace :=
  full_success cfgWC (fun _ => 0) (fun _ _ => rfl)

/-- C6: SRS parameterization — the SRS path is substituted into the commands
of exactly the setup (core stage 3), prove (5), verify (6) and
verifier-contract-generation (extension stage 0) stages: those four commands
contain the configured SRS path, while the remaining stages — including the
calldata-encoding extension stage — are unchanged under any change of the
SRS path. -/
theorem srs_parameterization (cfg : Config) (s₁ s₂ : String) :
    stageAt (steps ⟨cfg.workingDir, cfg.modelPath, s₁, cfg.generateContract⟩) 0
      = stageAt (steps ⟨cfg.workingDir, cfg.modelPath, s₂, cfg.generateContract⟩) 0 ∧
    stageAt (steps ⟨cfg.workingDir, cfg.modelPath, s₁, cfg.generateContract⟩) 1
      = stageAt (steps ⟨cfg.workingDir, cfg.modelPath, s₂, cfg.generateContract⟩) 1 ∧
    stageAt (steps ⟨cfg.workingDir, cfg.modelPath, s₁, cfg.generateContract⟩) 2
      = stageAt (steps ⟨cfg.workingDir, cfg.modelPath, s₂, cfg.generateContract⟩) 2 ∧
    stageAt (steps ⟨cfg.workingDir, cfg.modelPath, s₁, cfg.generateContract⟩) 4
      = stageAt (steps ⟨cfg.workingDir, cfg.modelPath, s₂, cfg.generateContract⟩) 4 ∧
    stageAt (contract_step ⟨cfg.workingDir, cfg.modelPath, s₁, cfg.generateContract⟩) 1
      = stageAt (contract_step ⟨cfg.workingDir, cfg.modelPath, s₂, cfg.generateContract⟩) 1 ∧
    cfg.srsPath ∈ (stageAt (steps cfg) 3).1 ∧
    cfg.srsPath ∈ (stageAt (steps cfg) 5).1 ∧
    cfg.srsPath ∈ (stageAt (steps cfg) 6).1 ∧
    cfg.srsPath ∈ (stageAt (contract_step cfg) 0).1 := by
  refine ⟨rfl, rfl, rfl, rfl, rfl, ?_, ?_, ?_, ?_⟩ <;>
    simp [steps, contract_step, stageAt]

/-- C7: Execution-context establishment — if the working-directory change
fails, the run terminates with a nonzero status having produced no event at
all (in particular no stage invocation); if it succeeds, the very first event
of the run is the change to the configured working directory, so it precedes
every stage invocation. -/
theorem execution_context (cfg : Config) (pf : Option Nat) (o : Cmd → Nat) :
    (mainRun cfg false pf o).trace = [] ∧
    (mainRun cfg false pf o).exitCode = 1 ∧
    (mainRun cfg true pf o).trace.head? = some (Event.chdir cfg.workingDir) := by
  refine ⟨rfl, rfl, ?_⟩
  by_cases hpf : pf = some 0
  · subst hpf
    by_cases hcore : (runStages o (steps cfg)).2 = true
    · by_cases hf : cfg.generateContract = true
      · by_cases hext : (runStages o (contract_step cfg)).2 = true
        · simp [mainRun, hcore, hf, hext]
        · simp only [Bool.not_eq_true] at hext
          simp [mainRun, hcore, hf, hext]
      · simp only [Bool.not_eq_true] at hf
        simp [mainRun, hcore, hf]
    · simp only [Bool.not_eq_true] at hcore
      simp [mainRun, hcore]
  · cases pf with
    | none => simp [mainRun]
    | some n => simp [mainRun, hpf]

/-- C8: Determinism — the observable behaviour of the driver (event trace and exit
status) depends only on the configuration, the outcome of the preflight
check, and the exit statuses assigned to the registry commands: two oracles
agreeing on every registry command yield identical runs. -/
theorem deterministic_driver (cfg : Config) (b : Bool) (pf : Option Nat)
    (o₁ o₂ : Cmd → Nat)
    (h : ∀ s ∈ steps cfg ++ contract_step cfg, o₁ s.1 = o₂ s.1) :
    mainRun cfg b pf o₁ = mainRun cfg b pf o₂ := by
  have h1 : runStages o₁ (steps cfg) = runStages o₂ (steps cfg) :=
    runStages_congr o₁ o₂ (steps cfg)
      (fun s hs => h s (List.mem_append_left _ hs))
  have h2 : runStages o₁ (contract_step cfg) = runStages o₂ (contract_step cfg) :=
    runStages_congr o₁ o₂ (contract_step cfg)
      (fun s hs => h s (List.mem_append_right _ hs))
  simp [mainRun, h1, h2]

/-- C8 witness: two concrete oracles that differ only on a command outside
both registries produce identical runs of a concrete configuration. -/
theorem deterministic_driver_witness :
    mainRun cfgWC true (some 0) (fun _ => 0)
      = mainRun cfgWC true (some 0)
          (fun c => if c = ["not-a-registry-command"] then 7 else 0) := by
  refine deterministic_driver cfgWC true (some 0) _ _ ?_
  decide

/-- A parsed Python JSON value: the possible results of `json.loads`.  The
scripts inspect only whether the value is a list and its length, never the
element values. -/
inductive PyJson where
  | null
  | bool (b : Bool)
  | num (n : Int)
  | str (s : String)
  | arr (elems : List PyJson)
  | obj (fields : List (String × PyJson))

/-- Observable events of a model-preparation run: console lines, creation of
the output directory (`os.makedirs`), and file writes.  A written file is
identified by its directory and fixed name, mirroring
`os.path.join(output_dir, name)`; file contents are outside the scope of the
claims. -/
inductive MEvent where
  | printedLn (s : String)
  | mkdirOut (dir : String)
  | wroteFile (dir : String) (name : String)
deriving DecidableEq

/-- The observable outcome of one model-preparation run. -/
structure MResult where
  trace : List MEvent
  exitCode : Nat
deriving DecidableEq

/-- The console strings the scripts derive from the floating-point model
evaluation (torch) — the formatted features, score, tier, qualification
flag and scaled score.  The evaluation happens in the external torch
library, depends only on the features, and never influences control flow,
so these strings are abstract parameters of the embedding. -/
structure Rendered where
  featuresRepr : String
  scoreStr : String
  tierStr : String
  qualifiesStr : String
  scaledStr : String

/-- Model of `os.path.join(dir, name)` for the relative literal names the
scripts use. -/
def pathStr (dir name : String) : String := dir ++ "/" ++ name

/-- The six score-report lines both variants print after validation
(lines 57-71 of the script variant, 54-68 of the plain variant). -/
def scoreReport (address : String) (r : Rendered) : List MEvent :=
  [ MEvent.printedLn ("Address: " ++ address),
    MEvent.printedLn ("Features: " ++ r.featuresRepr),
    MEvent.printedLn ("Calculated score: " ++ r.scoreStr),
    MEvent.printedLn ("Credit tier: " ++ r.tierStr),
    MEvent.printedLn "Threshold for favorable rate: 0.5",
    MEvent.printedLn ("Qualifies for favorable rate (100% collateral): " ++ r.qualifiesStr) ]

/-- First usage line of `src/ezkl/script/create_model.py`. -/
def usageScript1 : String :=
  "Usage: python3 ./script/create_model.py <output_dir> <address> <features> <generate_model_flag>"

/-- Second usage line of `src/ezkl/script/create_model.py`. -/
def usageScript2 : String :=
  "where generate_model_flag is 1 to generate model or 0 to skip model generation"

/-- Usage line of `src/ezkl/create_model.py`. -/
def usagePlain : String :=
  "Usage: python3 create_model.py <output_dir> <address> <features>"

/-- Error printed when `json.loads` raises `JSONDecodeError`. -/
def errJsonMsg : String := "Error: Features must be a valid JSON array"

/-- Error printed when the parsed value is not a list of exactly 4 elements. -/
def errListMsg : String := "Error: Features must be a list of 4 numbers"

/-- The post-validation body of `src/ezkl/script/create_model.py`
(lines 30-138): make the output directory, print the score report, export
the ONNX model only when the flag argument was `"1"` (announcing it; else
print the skip notice), print the scaled score, write the three JSON
artifacts, and print the flag-dependent final message. -/
def scriptBody (output_dir address : String) (generate_model : Bool)
    (r : Rendered) : List MEvent :=
  MEvent.mkdirOut output_dir ::
  scoreReport address r ++
  (if generate_model then
     [MEvent.printedLn ("Generating model file: " ++ pathStr output_dir "credit_model.onnx"),
      MEvent.wroteFile output_dir "credit_model.onnx"]
   else
     [MEvent.printedLn "Skipping model generation as per flag"]) ++
  [ MEvent.printedLn ("Scaled score (0-1000): " ++ r.scaledStr),
    MEvent.wroteFile output_dir "input.json",
    MEvent.wroteFile output_dir "scaling_debug.json",
    MEvent.wroteFile output_dir "metadata.json",
    (if generate_model then
      MEvent.printedLn ("Model converted to ONNX and input prepared for EZKL in " ++ output_dir)
    else
      MEvent.printedLn ("Input prepared for EZKL in " ++ output_dir)) ]

/-- The whole of `src/ezkl/script/create_model.py` as a function of the
argument vector (`sys.argv`, program name included), the JSON parser (the
Python stdlib `json.loads`, an environment parameter), and the rendered
evaluation strings.  The prologue (lines 11-28) validates the arguments:
fewer than 5 entries prints the usage and exits 1; an unparsable features
argument prints the JSON error and exits 1; a parse result that is not a
list of exactly 4 elements prints the list error and exits 1.  Element
types are never inspected. -/
def scriptRun (argv : List String) (parse : String → Option PyJson)
    (r : Rendered) : MResult :=
  if argv.length < 5 then
    ⟨[MEvent.printedLn usageScript1, MEvent.printedLn usageScript2], 1⟩
  else
    match parse (argv.getD 3 "") with
    | none => ⟨[MEvent.printedLn errJsonMsg], 1⟩
    | some (PyJson.arr xs) =>
      if xs.length = 4 then
        ⟨scriptBody (argv.getD 1 "") (argv.getD 2 "") (argv.getD 4 "" = "1") r, 0⟩
      else ⟨[MEvent.printedLn errListMsg], 1⟩
    | some _ => ⟨[MEvent.printedLn errListMsg], 1⟩

/-- The post-validation body of `src/ezkl/create_model.py` (lines 29-126):
as the script variant but the ONNX export is unconditional (and
unannounced) and the final message is fixed. -/
def plainBody (output_dir address : String) (r : Rendered) : List MEvent :=
  MEvent.mkdirOut output_dir ::
  scoreReport address r ++
  [ MEvent.wroteFile output_dir "credit_model.onnx",
    MEvent.printedLn ("Scaled score (0-1000): " ++ r.scaledStr),
    MEvent.wroteFile output_dir "input.json",
    MEvent.wroteFile output_dir "scaling_debug.json",
    MEvent.wroteFile output_dir "metadata.json",
    MEvent.printedLn ("Model converted to ONNX and input prepared for EZKL in " ++ output_dir) ]

/-- The whole of `src/ezkl/create_model.py`: same validation prologue as the
script variant, but requiring only 4 `sys.argv` entries (no flag argument). -/
def plainRun (argv : List String) (parse : String → Option PyJson)
    (r : Rendered) : MResult :=
  if argv.length < 4 then
    ⟨[MEvent.printedLn usagePlain], 1⟩
  else
    match parse (argv.getD 3 "") with
    | none => ⟨[MEvent.printedLn errJsonMsg], 1⟩
    | some (PyJson.arr xs) =>
      if xs.length = 4 then
        ⟨plainBody (argv.getD 1 "") (argv.getD 2 "") r, 0⟩
      else ⟨[MEvent.printedLn errListMsg], 1⟩
    | some _ => ⟨[MEvent.printedLn errListMsg], 1⟩

/-- Whether an event touches the filesystem (directory creation or a file
write), as opposed to a console line. -/
def isFsEvent : MEvent → Bool
  | MEvent.printedLn _ => false
  | MEvent.mkdirOut _ => true
  | MEvent.wroteFile _ _ => true

/-- Whether an event is a file write. -/
def isWriteEvent : MEvent → Bool
  | MEvent.wroteFile _ _ => true
  | _ => false

/-- The filesystem events of a trace, in order. -/
def fsEvents (tr : List MEvent) : List MEvent := tr.filter isFsEvent

/-- The file-write events of a trace, in order. -/
def fileWrites (tr : List MEvent) : List MEvent := tr.filter isWriteEvent

@[simp] theorem isFsEvent_printedLn (s : String) : isFsEvent (MEvent.printedLn s) = false := rfl

@[simp] theorem isFsEvent_mkdirOut (d : String) : isFsEvent (MEvent.mkdirOut d) = true := rfl

@[simp] theorem isFsEvent_wroteFile (d n : String) : isFsEvent (MEvent.wroteFile d n) = true := rfl

@[simp] theorem isWriteEvent_printedLn (s : String) : isWriteEvent (MEvent.printedLn s) = false := rfl

@[simp] theorem isWriteEvent_mkdirOut (d : String) : isWriteEvent (MEvent.mkdirOut d) = false := rfl

@[simp] theorem isWriteEvent_wroteFile (d n : String) : isWriteEvent (MEvent.wroteFile d n) = true := rfl

theorem scriptRun_exit_iff (argv : List String) (parse : String → Option PyJson)
    (r : Rendered) :
    (scriptRun argv parse r).exitCode = 0 ↔
      5 ≤ argv.length ∧
      ∃ xs, parse (argv.getD 3 "") = some (PyJson.arr xs) ∧ xs.length = 4 := by
  unfold scriptRun
  by_cases hlen : argv.length < 5
  · have hn : ¬ 5 ≤ argv.length := by omega
    simp [hlen, hn]
  · have hge : 5 ≤ argv.length := by omega
    cases hp : parse (argv.getD 3 "") with
    | none => simp [hlen, hp]
    | some j =>
      cases j with
      | arr xs =>
        by_cases h4 : xs.length = 4
        · simp [hlen, hp, h4, hge]
        · simp [hlen, hp, h4]
      | null => simp [hlen, hp]
      | bool b => simp [hlen, hp]
      | num n => simp [hlen, hp]
      | str s => simp [hlen, hp]
      | obj kvs => simp [hlen, hp]

theorem plainRun_exit_iff (argv : List String) (parse : String → Option PyJson)
    (r : Rendered) :
    (plainRun argv parse r).exitCode = 0 ↔
      4 ≤ argv.length ∧
      ∃ xs, parse (argv.getD 3 "") = some (PyJson.arr xs) ∧ xs.length = 4 := by
  unfold plainRun
  by_cases hlen : argv.length < 4
  · have hn : ¬ 4 ≤ argv.length := by omega
    simp [hlen, hn]
  · have hge : 4 ≤ argv.length := by omega
    cases hp : parse (argv.getD 3 "") with
    | none => simp [hlen, hp]
    | some j =>
      cases j with
      | arr xs =>
        by_cases h4 : xs.length = 4
        · simp [hlen, hp, h4, hge]
        · simp [hlen, hp, h4]
      | null => simp [hlen, hp]
      | bool b => simp [hlen, hp]
      | num n => simp [hlen, hp]
      | str s => simp [hlen, hp]
      | obj kvs => simp [hlen, hp]

theorem scriptRun_failure_shape (argv : List String)
    (parse : String → Option PyJson) (r : Rendered) :
    (scriptRun argv parse r).exitCode = 0 ∨
    (((scriptRun argv parse r).trace
        = [MEvent.printedLn usageScript1, MEvent.printedLn usageScript2] ∨
      (scriptRun argv parse r).trace = [MEvent.printedLn errJsonMsg] ∨
      (scriptRun argv parse r).trace = [MEvent.printedLn errListMsg]) ∧
      (scriptRun argv parse r).exitCode = 1) := by
  unfold scriptRun
  by_cases hlen : argv.length < 5
  · simp [hlen]
  · cases hp : parse (argv.getD 3 "") with
    | none => simp [hlen, hp]
    | some j =>
      cases j with
      | arr xs =>
        by_cases h4 : xs.length = 4
        · simp [hlen, hp, h4]
        · simp [hlen, hp, h4]
      | null => simp [hlen, hp]
      | bool b => simp [hlen, hp]
      | num n => simp [hlen, hp]
      | str s => simp [hlen, hp]
      | obj kvs => simp [hlen, hp]

theorem plainRun_failure_shape (argv : List String)
    (parse : String → Option PyJson) (r : Rendered) :
    (plainRun argv parse r).exitCode = 0 ∨
    (((plainRun argv parse r).trace = [MEvent.printedLn usagePlain] ∨
      (plainRun argv parse r).trace = [MEvent.printedLn errJsonMsg] ∨
      (plainRun argv parse r).trace = [MEvent.printedLn errListMsg]) ∧
      (plainRun argv parse r).exitCode = 1) := by
  unfold plainRun
  by_cases hlen : argv.length < 4
  · simp [hlen]
  · cases hp : parse (argv.getD 3 "") with
    | none => simp [hlen, hp]
    | some j =>
      cases j with
      | arr xs =>
        by_cases h4 : xs.length = 4
        · simp [hlen, hp, h4]
        · simp [hlen, hp, h4]
      | null => simp [hlen, hp]
      | bool b => simp [hlen, hp]
      | num n => simp [hlen, hp]
      | str s => simp [hlen, hp]
      | obj kvs => simp [hlen, hp]

/-- C9: Model-preparation argument validation — in both variants the run
exits with status 0 exactly when enough command-line arguments are supplied
and the features argument parses to a JSON array of exactly 4 elements (of
arbitrary types — element-wise checks are never performed); every other run
produces only the usage or error console lines (so no directory is created
and no file is written) and exits with status 1. -/
theorem model_arg_validation (argv : List String)
    (parse : String → Option PyJson) (r : Rendered) :
    ((scriptRun argv parse r).exitCode = 0 ↔
      5 ≤ argv.length ∧
      ∃ xs, parse (argv.getD 3 "") = some (PyJson.arr xs) ∧ xs.length = 4) ∧
    ((plainRun argv parse r).exitCode = 0 ↔
      4 ≤ argv.length ∧
      ∃ xs, parse (argv.getD 3 "") = some (PyJson.arr xs) ∧ xs.length = 4) ∧
    ((scriptRun argv parse r).exitCode = 0 ∨
      (((scriptRun argv parse r).trace
          = [MEvent.printedLn usageScript1, MEvent.printedLn usageScript2] ∨
        (scriptRun argv parse r).trace = [MEvent.printedLn errJsonMsg] ∨
        (scriptRun argv parse r).trace = [MEvent.printedLn errListMsg]) ∧
        (scriptRun argv parse r).exitCode = 1)) ∧
    ((plainRun argv parse r).exitCode = 0 ∨
      (((plainRun argv parse r).trace = [MEvent.printedLn usagePlain] ∨
        (plainRun argv parse r).trace = [MEvent.printedLn errJsonMsg] ∨
        (plainRun argv parse r).trace = [MEvent.printedLn errListMsg]) ∧
        (plainRun argv parse r).exitCode = 1)) :=
  ⟨scriptRun_exit_iff argv parse r, plainRun_exit_iff argv parse r,
   scriptRun_failure_shape argv parse r, plainRun_failure_shape argv parse r⟩

theorem scriptRun_fileWrites (argv : List String)
    (parse : String → Option PyJson) (r : Rendered) :
    fileWrites (scriptRun argv parse r).trace =
      if (scriptRun argv parse r).exitCode = 0 then
        (if argv.getD 4 "" = "1"
         then [MEvent.wroteFile (argv.getD 1 "") "credit_model.onnx"]
         else []) ++
        [MEvent.wroteFile (argv.getD 1 "") "input.json",
         MEvent.wroteFile (argv.getD 1 "") "scaling_debug.json",
         MEvent.wroteFile (argv.getD 1 "") "metadata.json"]
      else [] := by
  unfold scriptRun
  by_cases hlen : argv.length < 5
  · simp [hlen, fileWrites]
  · cases hp : parse (argv.getD 3 "") with
    | none => simp [hlen, hp, fileWrites]
    | some j =>
      cases j with
      | arr xs =>
        by_cases h4 : xs.length = 4
        · by_cases hfl : argv[4]?.getD "" = "1"
          · simp [hlen, hp, h4, hfl, fileWrites, scriptBody, scoreReport]
          · simp [hlen, hp, h4, hfl, fileWrites, scriptBody, scoreReport]
        · simp [hlen, hp, h4, fileWrites]
      | null => simp [hlen, hp, fileWrites]
      | bool b => simp [hlen, hp, fileWrites]
      | num n => simp [hlen, hp, fileWrites]
      | str s => simp [hlen, hp, fileWrites]
      | obj kvs => simp [hlen, hp, fileWrites]

theorem scriptRun_flag_frame (p d a f : String) (rest : List String)
    (parse : String → Option PyJson) (r : Rendered) :
    (∀ z w : String,
        (scriptRun (p :: d :: a :: f :: z :: rest) parse r).trace
          = (scriptRun (p :: d :: a :: f :: w :: rest) parse r).trace) ∨
    ∃ pre mid, ∀ z : String,
        (scriptRun (p :: d :: a :: f :: z :: rest) parse r).trace =
          pre ++
          (if z = "1" then
            [MEvent.printedLn ("Generating model file: " ++ pathStr d "credit_model.onnx"),
             MEvent.wroteFile d "credit_model.onnx"]
           else [MEvent.printedLn "Skipping model generation as per flag"]) ++
          mid ++
          [if z = "1" then
            MEvent.printedLn ("Model converted to ONNX and input prepared for EZKL in " ++ d)
           else MEvent.printedLn ("Input prepared for EZKL in " ++ d)] := by
  have hlen : ∀ z : String, ¬ ((p :: d :: a :: f :: z :: rest).length < 5) := by
    intro z
    simp only [List.length_cons]
    omega
  have hlen2 : ¬ (rest.length + 1 + 1 + 1 + 1 + 1 < 5) := by omega
  cases hp : parse f with
  | none =>
    left
    intro z w
    simp [scriptRun, hlen z, hlen w, hp]
  | some j =>
    cases j with
    | arr xs =>
      by_cases h4 : xs.length = 4
      · right
        refine ⟨MEvent.mkdirOut d :: scoreReport a r,
          [MEvent.printedLn ("Scaled score (0-1000): " ++ r.scaledStr),
           MEvent.wroteFile d "input.json",
           MEvent.wroteFile d "scaling_debug.json",
           MEvent.wroteFile d "metadata.json"], ?_⟩
        intro z
        by_cases hz : z = "1"
        · simp [scriptRun, hlen z, hlen2, hp, h4, hz, scriptBody, scoreReport]
        · simp [scriptRun, hlen z, hlen2, hp, h4, hz, scriptBody, scoreReport]
      · left
        intro z w
        simp [scriptRun, hlen z, hlen w, hp, h4]
    | null =>
      left
      intro z w
      simp [scriptRun, hlen z, hlen w, hp]
    | bool b =>
      left
      intro z w
      simp [scriptRun, hlen z, hlen w, hp]
    | num n =>
      left
      intro z w
      simp [scriptRun, hlen z, hlen w, hp]
    | str s =>
      left
      intro z w
      simp [scriptRun, hlen z, hlen w, hp]
    | obj kvs =>
      left
      intro z w
      simp [scriptRun, hlen z, hlen w, hp]

/-- C10 (amended): model-generation flag frame property — in the script
variant, whenever the fourth argument is any string other than `"1"` the
ONNX model file is never written while the EZKL input file, the
scaling-debug file and the metadata file are written in every validated run
(the file writes are exactly those three, plus the model file exactly when
the flag is `"1"`); and the flag affects only the model-generation branch
(the model-file write together with its generation/skip notice line) and
the final message: every run either has a trace entirely independent of the
flag argument, or decomposes as a fixed leading segment, the flag-dependent
generation branch, a fixed middle, and the flag-dependent final message. -/
theorem model_flag_frame (argv : List String) (p d a f : String)
    (rest : List String) (parse : String → Option PyJson) (r : Rendered) :
    (fileWrites (scriptRun argv parse r).trace =
      if (scriptRun argv parse r).exitCode = 0 then
        (if argv.getD 4 "" = "1"
         then [MEvent.wroteFile (argv.getD 1 "") "credit_model.onnx"]
         else []) ++
        [MEvent.wroteFile (argv.getD 1 "") "input.json",
         MEvent.wroteFile (argv.getD 1 "") "scaling_debug.json",
         MEvent.wroteFile (argv.getD 1 "") "metadata.json"]
      else []) ∧
    ((∀ z w : String,
        (scriptRun (p :: d :: a :: f :: z :: rest) parse r).trace
          = (scriptRun (p :: d :: a :: f :: w :: rest) parse r).trace) ∨
      ∃ pre mid, ∀ z : String,
        (scriptRun (p :: d :: a :: f :: z :: rest) parse r).trace =
          pre ++
          (if z = "1" then
            [MEvent.printedLn ("Generating model file: " ++ pathStr d "credit_model.onnx"),
             MEvent.wroteFile d "credit_model.onnx"]
           else [MEvent.printedLn "Skipping model generation as per flag"]) ++
          mid ++
          [if z = "1" then
            MEvent.printedLn ("Model converted to ONNX and input prepared for EZKL in " ++ d)
           else MEvent.printedLn ("Input prepared for EZKL in " ++ d)]) :=
  ⟨scriptRun_fileWrites argv parse r, scriptRun_flag_frame p d a f rest parse r⟩

/-- Concrete JSON parser for the counterexample: parses the one features
string used there to a 4-element array. -/
def parseX : String → Option PyJson := fun s =>
  if s = "[1,2,3,4]" then
    some (PyJson.arr [PyJson.num 1, PyJson.num 2, PyJson.num 3, PyJson.num 4])
  else none

/-- Concrete rendered evaluation strings for the counterexample. -/
def rX : Rendered := ⟨"[1, 2, 3, 4]", "0.9000", "HIGH", "True", "900"⟩

/-- C10 counterexample: the flag does not affect only the model-file write
and the final message — with the flag `"0"` the script also prints the skip
notice `Skipping model generation as per flag`, a console line that is
neither a file write nor the final message and is absent when the flag is
`"1"`. -/
theorem model_flag_frame_counterexample :
    MEvent.printedLn "Skipping model generation as per flag"
      ∈ (scriptRun ["create_model.py", "out", "0xabc", "[1,2,3,4]", "0"] parseX rX).trace
    ∧ MEvent.printedLn "Skipping model generation as per flag"
      ∉ (scriptRun ["create_model.py", "out", "0xabc", "[1,2,3,4]", "1"] parseX rX).trace := by
  constructor
  · simp [scriptRun, parseX, rX, scriptBody, scoreReport, pathStr]
  · simp [scriptRun, parseX, rX, scriptBody, scoreReport, pathStr]
